import Mathlib

/-!
Verification of the deep-research-agent repository.

The Python sources (src/deep_research_agent.py and src/web_to_text.py) are
shallowly embedded below.  Python strings are sequences of Unicode code
points and are modelled as lists of Lean characters (PyStr).  Python dicts
with a known key set are modelled as structures whose Option-valued fields
record presence of the key; remote calls (HTTP requests, language-model
invocations) are modelled as oracle functions passed in as arguments, with
a raised Python exception modelled as an Except.error carrying the message.
-/

/-- Python strings (sequences of Unicode code points). -/
abbrev PyStr := List Char

/-- Decimal digit character for a value below ten (used to model the text
rendering of Python integers in f-strings). -/
def digitChar : Nat → Char
  | 0 => '0' | 1 => '1' | 2 => '2' | 3 => '3' | 4 => '4'
  | 5 => '5' | 6 => '6' | 7 => '7' | 8 => '8' | 9 => '9'
  | _ => '?'

/-- Decimal rendering of a natural number, modelling Python str(int). -/
def natDigits (n : Nat) : PyStr :=
  if _h : n < 10 then [digitChar n]
  else natDigits (n / 10) ++ [digitChar (n % 10)]
decreasing_by exact Nat.div_lt_self (by omega) (by omega)

/-- Python truthiness of an optional string (None and the empty string are
falsy). -/
def py_truthy : Option PyStr → Bool
  | none => false
  | some s => !s.isEmpty

/-- Python `a or b` on optional strings: `b` when `a` is falsy. -/
def py_or (a b : Option PyStr) : Option PyStr :=
  if py_truthy a then a else b

/-- Result of a raising Python call: error carries str(exception). -/
def except_is_error {ε β : Type} : Except ε β → Bool
  | .error _ => true
  | .ok _ => false

/-!
### deep_research_agent.py, DeepResearchAgent._generate_search_queries

    async def _generate_search_queries(self, topic, num_queries = 3):
        return [topic]

and the function tool wrapping it, which replaces a missing num_queries
with 3 before delegating.
-/

/-- Embedding of DeepResearchAgent._generate_search_queries
(src/deep_research_agent.py lines 220-233): the body ignores num_queries
and returns the one-element list holding the topic. -/
def generate_search_queries (topic : PyStr) (_num_queries : Nat) : List PyStr :=
  [topic]

/-- Embedding of the generate_search_queries function tool
(src/deep_research_agent.py lines 101-111): a missing num_queries defaults
to 3, then the internal helper is called. -/
def generate_search_queries_tool (topic : PyStr) (num_queries : Option Nat) : List PyStr :=
  generate_search_queries topic (num_queries.getD 3)

/-!
### web_to_text.py, WebToTextExtractor.extract_from_url (parameter shape)

    valid_formats = ['markdown', 'html', 'rawHtml', 'links', 'json',
                     'screenshot', 'screenshot@fullPage', 'extract']
    validated_formats = [fmt for fmt in formats if fmt in valid_formats]
    if not validated_formats:
        validated_formats = ['markdown']
    if self.use_local_docker:
        params = {'formats': validated_formats, 'timeout': timeout,
                  'onlyMainContent': True}
    else:
        params = {'formats': formats, 'timeout': timeout}
-/

/-- The valid_formats list of WebToTextExtractor.extract_from_url
(src/web_to_text.py line 73). -/
def valid_formats : List PyStr :=
  ["markdown".toList, "html".toList, "rawHtml".toList, "links".toList,
   "json".toList, "screenshot".toList, "screenshot@fullPage".toList,
   "extract".toList]

/-- The validated format list (src/web_to_text.py lines 74-78): keep the
supported names, and fall back to the one-element markdown list when
nothing remains. -/
def validated_formats (formats : List PyStr) : List PyStr :=
  let v := formats.filter (fun f => decide (f ∈ valid_formats))
  if v = [] then ["markdown".toList] else v

/-- The params dict built by extract_from_url before calling scrape_url. -/
structure ScrapeParams where
  formats : List PyStr
  timeout : Nat
  onlyMainContent : Option Bool
deriving DecidableEq

/-- Embedding of the request-parameter construction of
WebToTextExtractor.extract_from_url (src/web_to_text.py lines 72-96).
The local-Docker branch sends the validated list (with onlyMainContent);
the cloud branch sends the original formats argument unchanged. -/
def extract_from_url_params (use_local_docker : Bool) (formats : List PyStr)
    (timeout : Nat) : ScrapeParams :=
  if use_local_docker then ⟨validated_formats formats, timeout, some true⟩
  else ⟨formats, timeout, none⟩

/-!
### web_to_text.py, WebToTextExtractor.search_and_extract

    search_results = self.app.search(query, params=search_params)
    if not search_results.get('success', False) or 'data' not in search_results:
        logger.error(...)
        return []
    extracted_results = []
    for result in search_results['data']:
        url = result.get('url')
        if not url:
            continue
        try:
            extracted = self.extract_from_url(url, formats=validated_formats)
            extracted['search_metadata'] = {'title': result.get('title', ''),
                                            'snippet': result.get('snippet', ''),
                                            'url': url}
            extracted_results.append(extracted)
        except Exception as e:
            logger.warning(...)
    return extracted_results

A raising self.app.search is re-raised by the outer handler; a raising
per-URL extract_from_url is swallowed and the URL is skipped.  The search
call and the per-URL scrape calls are oracles; the scraped payload type is
left abstract.
-/

/-- One entry of the search response data list; the dict keys read by the
loop (url, title, snippet) are modelled as optional fields. -/
structure SearchResultItem where
  url : Option PyStr
  title : Option PyStr
  snippet : Option PyStr
deriving DecidableEq

/-- The search response dict: success flag (dict.get with default False is
modelled as a plain Bool) and the optional data list. -/
structure SearchResponse where
  success : Bool
  data : Option (List SearchResultItem)
deriving DecidableEq

/-- The search_metadata dict attached to each extracted result. -/
structure SearchMetaOut where
  title : PyStr
  snippet : PyStr
  url : PyStr
deriving DecidableEq

/-- One element of the returned list: the scraped payload plus the
search_metadata entry added by the loop. -/
structure ExtractedItem (α : Type) where
  content : α
  search_metadata : SearchMetaOut
deriving DecidableEq

/-- The per-result body of the loop in search_and_extract: skip falsy urls,
skip urls whose scrape raises, otherwise keep the payload with the
search metadata attached. -/
def scrape_step {α : Type} (f : PyStr → Except PyStr α)
    (item : SearchResultItem) : Option (ExtractedItem α) :=
  match item.url with
  | none => none
  | some u =>
    if u = [] then none
    else
      match f u with
      | .error _ => none
      | .ok a => some ⟨a, ⟨item.title.getD [], item.snippet.getD [], u⟩⟩

/-- Embedding of WebToTextExtractor.search_and_extract
(src/web_to_text.py lines 208-240).  The first argument is the outcome of
self.app.search (error = raised exception), the second the per-URL scrape
oracle. -/
def web_search_and_extract {α : Type} (s : Except PyStr SearchResponse)
    (f : PyStr → Except PyStr α) : Except PyStr (List (ExtractedItem α)) :=
  match s with
  | .error e => .error e
  | .ok resp =>
    match resp.data with
    | none => .ok []
    | some items =>
      if resp.success then .ok (items.filterMap (scrape_step f)) else .ok []

/-- Rendering of the C1 wording that the search step itself fails: either
the search call raised, or the search response reported failure (the code
logs Search failed and returns in that case). -/
def search_step_failed_spec (s : Except PyStr SearchResponse) : Bool :=
  match s with
  | .error _ => true
  | .ok r => !r.success || r.data.isNone

/-!
### deep_research_agent.py, save_research_results

    sanitized_topic = "".join(c if c.isalnum() or c in " -_" else "_" for c in topic)
    sanitized_topic = sanitized_topic[:50]
    timestamp = datetime.now().strftime("%Y%m%d_%H%M%S")
    filename = f"research_{sanitized_topic}_{timestamp}.md"
    content = f"# Research Results: {topic}\n\n## Generated on {...}\n\n{results}\n"
-/

/-- Model of Python str.isalnum for a single character, restricted to the
Latin-1 range: ASCII letters and digits, the Latin-1 letters U+00AA, U+00B5,
U+00BA and U+00C0-U+00FF except the multiplication and division signs, and
the Latin-1 numeric characters (superscripts and vulgar fractions), exactly
as classified by the Unicode character database.  Code points above U+00FF
are treated as non-alphanumeric; the development only evaluates this
predicate on Latin-1 text. -/
def py_isalnum (c : Char) : Bool :=
  c.isAlphanum ||
  (let n := c.toNat
   n = 0xAA || n = 0xB2 || n = 0xB3 || n = 0xB5 || n = 0xB9 || n = 0xBA ||
   n = 0xBC || n = 0xBD || n = 0xBE ||
   (decide (0xC0 ≤ n) && decide (n ≤ 0xFF) && !(n = 0xD7) && !(n = 0xF7)))

/-- The per-character sanitization step of save_research_results
(src/deep_research_agent.py line 467): keep alphanumerics, spaces, hyphens
and underscores, replace everything else with an underscore. -/
def sanitize_char (c : Char) : Char :=
  if py_isalnum c || c = ' ' || c = '-' || c = '_' then c else '_'

/-- The sanitized topic string (src/deep_research_agent.py line 467). -/
def sanitize_topic (topic : PyStr) : PyStr :=
  topic.map sanitize_char

/-- The topic segment of the filename: the sanitized topic truncated to 50
characters (src/deep_research_agent.py line 468). -/
def topic_segment (topic : PyStr) : PyStr :=
  (sanitize_topic topic).take 50

/-- The value of datetime.now() at the moment of the call. -/
structure PyDateTime where
  year : Nat
  month : Nat
  day : Nat
  hour : Nat
  minute : Nat
  second : Nat
deriving DecidableEq

/-- The invariants a real datetime value satisfies (years of interest are
four-digit). -/
def PyDateTime.valid (t : PyDateTime) : Prop :=
  1000 ≤ t.year ∧ t.year ≤ 9999 ∧ 1 ≤ t.month ∧ t.month ≤ 12 ∧
  1 ≤ t.day ∧ t.day ≤ 31 ∧ t.hour ≤ 23 ∧ t.minute ≤ 59 ∧ t.second ≤ 59

/-- strftime zero-padded two-digit field (%m, %d, %H, %M, %S). -/
def pad2 (n : Nat) : PyStr :=
  if n < 10 then '0' :: natDigits n else natDigits n

/-- strftime zero-padded four-digit year field (%Y). -/
def pad4 (n : Nat) : PyStr :=
  List.replicate (4 - (natDigits n).length) '0' ++ natDigits n

/-- strftime("%Y%m%d_%H%M%S") on a datetime value. -/
def timestamp_compact (t : PyDateTime) : PyStr :=
  pad4 t.year ++ pad2 t.month ++ pad2 t.day ++
  '_' :: (pad2 t.hour ++ pad2 t.minute ++ pad2 t.second)

/-- strftime("%Y-%m-%d %H:%M:%S") on a datetime value (the generated-on
line of the document body). -/
def timestamp_human (t : PyDateTime) : PyStr :=
  pad4 t.year ++ '-' :: pad2 t.month ++ '-' :: pad2 t.day ++
  ' ' :: pad2 t.hour ++ ':' :: pad2 t.minute ++ ':' :: pad2 t.second

/-- Embedding of save_research_results (src/deep_research_agent.py lines
458-489), with datetime.now() passed in explicitly; returns the filename
and the written file content. -/
def save_research_results (topic results : PyStr) (now : PyDateTime) :
    PyStr × PyStr :=
  let filename :=
    "research_".toList ++ topic_segment topic ++
    '_' :: timestamp_compact now ++ ".md".toList
  let content :=
    "# Research Results: ".toList ++ topic ++
    "\n\n## Generated on ".toList ++ timestamp_human now ++
    "\n\n".toList ++ results ++ "\n".toList
  (filename, content)

/-!
### web_to_text.py, WebToTextExtractor.deep_research

    research_response = self.app.deep_research(query, params=research_params)
    if not research_response.success:
        return {'success': False, 'error': research_response.error}
    research_id = research_response.id
    status = "processing"
    result = None
    while status in ["processing", "scraping"]:
        status_response = self.app.deep_research_status(research_id)
        status = status_response.status
        if status == "done":
            result = {'success': True, 'sources': ..., 'activities': ...,
                      'summaries': ..., 'research_id': research_id}
            break
        elif status == "error":
            return {'success': False, 'error': status_response.error}
        time.sleep(2)
    return result or {'success': False, 'error': 'Research timed out'}

The submission and the status polls are oracles; the poll oracle is
indexed by the number of polls already issued.  The returned pair records
the snapshot together with the number of status polls that were issued;
the unbounded while loop is given explicit fuel, with none modelling a run
that is still looping when the fuel runs out.
-/

/-- The submission response of self.app.deep_research. -/
structure SubmissionResponse where
  success : Bool
  error : Option PyStr
  id : PyStr
deriving DecidableEq

/-- One status-poll response of self.app.deep_research_status. -/
structure StatusResponse where
  status : PyStr
  sources : List PyStr
  activities : List PyStr
  summaries : List PyStr
  error : Option PyStr
deriving DecidableEq

/-- The dict returned by deep_research: either the success snapshot or an
error snapshot with success False. -/
inductive DRSnapshot where
  | ok (sources activities summaries : List PyStr) (research_id : PyStr)
  | err (error : Option PyStr)
deriving DecidableEq

/-- Whether a status keeps the while loop running: not done, not error,
and listed in ["processing", "scraping"] (the loop condition). -/
def cont_step (sr : StatusResponse) : Bool :=
  if sr.status = "done".toList then false
  else if sr.status = "error".toList then false
  else if sr.status = "processing".toList ∨ sr.status = "scraping".toList then true
  else false

/-- The polling loop of deep_research; i counts the polls already issued. -/
def poll_loop (poll : Nat → StatusResponse) (rid : PyStr) :
    Nat → Nat → Option (DRSnapshot × Nat)
  | 0, _ => none
  | fuel + 1, i =>
    let sr := poll i
    if sr.status = "done".toList then
      some (.ok sr.sources sr.activities sr.summaries rid, i + 1)
    else if sr.status = "error".toList then
      some (.err sr.error, i + 1)
    else if sr.status = "processing".toList ∨ sr.status = "scraping".toList then
      poll_loop poll rid fuel (i + 1)
    else
      some (.err (some "Research timed out".toList), i + 1)

/-- Embedding of WebToTextExtractor.deep_research (src/web_to_text.py
lines 305-377): a failed submission returns the error snapshot with no
poll issued; otherwise the status loop runs. -/
def web_deep_research (sub : SubmissionResponse) (poll : Nat → StatusResponse)
    (fuel : Nat) : Option (DRSnapshot × Nat) :=
  if sub.success then poll_loop poll sub.id fuel 0
  else some (.err sub.error, 0)

/-!
### deep_research_agent.py, DeepResearchAgent.research

    try:
        planning_result = await Runner.run(self.agents["planner"], input=...)
        planning_output = ItemHelpers.text_message_outputs(...)
        research_result = await Runner.run(self.agents["researcher"], input=...)
        research_output = ItemHelpers.text_message_outputs(...)
        synthesis_result = await Runner.run(self.agents["synthesis"], input=...)
        final_output = ItemHelpers.text_message_outputs(...)
        return final_output
    except Exception as e:
        return f"Error performing research: {str(e)}"

Each Runner.run round-trip (including the output extraction) is an oracle
from the constructed prompt to either the stage text or a raised
exception.  The returned pair additionally records which stages were
invoked, so that early abort is observable.
-/

/-- The three pipeline stages. -/
inductive PipelineStage where
  | plan
  | research
  | synthesize
deriving DecidableEq

/-- The error string built by the exception handler of research. -/
def err_research (e : PyStr) : PyStr :=
  "Error performing research: ".toList ++ e

/-- The prompt sent to the planner agent (line 425). -/
def plan_input (q : PyStr) : PyStr :=
  "I need to research this topic thoroughly: ".toList ++ q ++
  "\n\nPlease analyze this question and create a research plan with specific search queries to investigate.".toList

/-- The prompt sent to the researcher agent (line 436). -/
def research_input (q plan_out : PyStr) : PyStr :=
  "I need to research this topic: ".toList ++ q ++
  "\n\nHere\x27s the research plan and queries from our planning phase:\n\n".toList ++
  plan_out ++
  "\n\nPlease conduct thorough research using these queries and gather comprehensive information.".toList

/-- The prompt sent to the synthesis agent (line 446). -/
def synthesis_input (q research_out : PyStr) : PyStr :=
  "Original question: ".toList ++ q ++
  "\n\nResearch findings:\n\n".toList ++ research_out ++
  "\n\nPlease synthesize this information into a comprehensive, well-structured answer to the original question.".toList

/-- Embedding of DeepResearchAgent.research (src/deep_research_agent.py
lines 408-456): three sequential oracle calls, each output threaded into
the next prompt; the first raised exception aborts the pipeline and is
converted into an error string.  The second component records the stages
that were invoked. -/
def agent_research (run_planner run_researcher run_synthesis : PyStr → Except PyStr PyStr)
    (question : PyStr) : PyStr × List PipelineStage :=
  match run_planner (plan_input question) with
  | .error e => (err_research e, [.plan])
  | .ok plan_out =>
    match run_researcher (research_input question plan_out) with
    | .error e => (err_research e, [.plan, .research])
    | .ok research_out =>
      match run_synthesis (synthesis_input question research_out) with
      | .error e => (err_research e, [.plan, .research, .synthesize])
      | .ok final_out => (final_out, [.plan, .research, .synthesize])

/-!
### web_to_text.py, WebToTextExtractor.combine_results_for_llm

    combined = []
    for i, result in enumerate(results, 1):
        combined.append(f"\n{'='*80}\n")
        if include_metadata:
            url = result.get('url', '')
            metadata = result.get('metadata', {})
            title = metadata.get('title', f"Source {i}")
            combined.append(f"# {title}\n")
            combined.append(f"URL: {url}\n")
            if 'description' in metadata and metadata['description']:
                combined.append(f"Description: {metadata['description']}\n")
            if 'author' in metadata and metadata['author']: ...
            if 'date' in metadata and metadata['date']: ...
            combined.append("\n")
        if format in result: combined.append(result[format])
        elif 'markdown' in result: combined.append(result['markdown'])
        elif 'text' in result: combined.append(result['text'])
        else:
            for key in ['html', 'json']:
                if key in result:
                    combined.append(f"Content in {key} format:\n")
                    combined.append(str(result[key]))
                    break
        combined.append("\n")
    return "\n".join(combined)

The result dicts are modelled with the keys this function reads
(url, metadata, markdown, text, html, json); the metadata sub-dict with
the keys title, description, author, date.
-/

/-- The metadata sub-dict of an extraction result. -/
structure MetaRec where
  title : Option PyStr
  description : Option PyStr
  author : Option PyStr
  date : Option PyStr
deriving DecidableEq

/-- An extraction result dict as read by combine_results_for_llm. -/
structure CombineResult where
  url : Option PyStr
  metadata : Option MetaRec
  markdown : Option PyStr
  text : Option PyStr
  html : Option PyStr
  json : Option PyStr
deriving DecidableEq

/-- Lookup of result[format] for the modelled keys (the dict membership
test `format in result`). -/
def md_field (r : CombineResult) (fmt : PyStr) : Option PyStr :=
  if fmt = "markdown".toList then r.markdown
  else if fmt = "text".toList then r.text
  else if fmt = "html".toList then r.html
  else if fmt = "json".toList then r.json
  else none

/-- An optional labelled metadata line: present when the key is present
and its value truthy. -/
def kv_pieces (pre : PyStr) (o : Option PyStr) : List PyStr :=
  match o with
  | none => []
  | some d => if d = [] then [] else [pre ++ (d ++ "\n".toList)]

/-- The metadata pieces appended for the i-th result when include_metadata
is set. -/
def meta_pieces (i : Nat) (r : CombineResult) : List PyStr :=
  let title :=
    match r.metadata with
    | none => "Source ".toList ++ natDigits i
    | some m => m.title.getD ("Source ".toList ++ natDigits i)
  ("# ".toList ++ (title ++ "\n".toList)) ::
  ("URL: ".toList ++ (r.url.getD [] ++ "\n".toList)) ::
  ((match r.metadata with
    | none => []
    | some m =>
      kv_pieces "Description: ".toList m.description ++
      kv_pieces "Author: ".toList m.author ++
      kv_pieces "Date: ".toList m.date) ++ ["\n".toList])

/-- The content pieces: the requested format, else the markdown/text
fallbacks, else the first of html/json rendered with a header line. -/
def content_pieces (fmt : PyStr) (r : CombineResult) : List PyStr :=
  match md_field r fmt with
  | some c => [c]
  | none =>
    match r.markdown with
    | some c => [c]
    | none =>
      match r.text with
      | some c => [c]
      | none =>
        match r.html with
        | some c => ["Content in html format:\n".toList, c]
        | none =>
          match r.json with
          | some c => ["Content in json format:\n".toList, c]
          | none => []

/-- The line of eighty equals signs used in the separator. -/
def sep_line : PyStr := List.replicate 80 '='

/-- All pieces appended for the i-th result. -/
def result_pieces (fmt : PyStr) (inc : Bool) (i : Nat) (r : CombineResult) :
    List PyStr :=
  ('\n' :: (sep_line ++ "\n".toList)) ::
  ((if inc then meta_pieces i r else []) ++ content_pieces fmt r ++ ["\n".toList])

/-- The whole combined list, results numbered from i. -/
def combine_blocks (fmt : PyStr) (inc : Bool) : Nat → List CombineResult → List PyStr
  | _, [] => []
  | i, r :: rs => result_pieces fmt inc i r ++ combine_blocks fmt inc (i + 1) rs

/-- Python "\n".join. -/
def py_join_nl : List PyStr → PyStr
  | [] => []
  | [p] => p
  | p :: q :: ps => p ++ '\n' :: py_join_nl (q :: ps)

/-- Embedding of WebToTextExtractor.combine_results_for_llm
(src/web_to_text.py lines 452-507). -/
def combine_results_for_llm (fmt : PyStr) (inc : Bool)
    (results : List CombineResult) : PyStr :=
  py_join_nl (combine_blocks fmt inc 1 results)

/-!
### deep_research_agent.py, the formatted tool outputs (truncation caps)

_search_web caps each inline result at 2000 characters, _extract_from_url
caps the single page at 3000, _search_and_extract caps the combined text
at 4000; each truncation appends the literal marker.
-/

/-- The literal truncation marker. -/
def trunc_marker : PyStr := "...[content truncated]".toList

/-- The shared truncation step: content[:cap] plus the marker when the
content exceeds the cap, the content unchanged otherwise
(src/deep_research_agent.py lines 266-267, 360-361, 399-400). -/
def truncate_content (cap : Nat) (content : PyStr) : PyStr :=
  if content.length > cap then content.take cap ++ trunc_marker else content

/-- The search_metadata sub-dict as read by _search_web. -/
structure SWMeta where
  url : Option PyStr
  title : Option PyStr
deriving DecidableEq

/-- A result dict as read by _search_web. -/
structure SWResult where
  search_metadata : Option SWMeta
  markdown : Option PyStr
deriving DecidableEq

/-- result.get("search_metadata", {}).get("url", "Unknown URL"). -/
def sw_url (r : SWResult) : PyStr :=
  match r.search_metadata with
  | none => "Unknown URL".toList
  | some m => m.url.getD "Unknown URL".toList

/-- result.get("search_metadata", {}).get("title", f"Result {i}"). -/
def sw_title (i : Nat) (r : SWResult) : PyStr :=
  match r.search_metadata with
  | none => "Result ".toList ++ natDigits i
  | some m => m.title.getD ("Result ".toList ++ natDigits i)

/-- The header lines of one _search_web result block. -/
def sw_header (i : Nat) (r : SWResult) : PyStr :=
  "## ".toList ++ sw_title i r ++ "\n".toList ++
  "Source: ".toList ++ sw_url r ++ "\n\n".toList

/-- One result block of _search_web (src/deep_research_agent.py lines
256-270): header, then the 2000-capped markdown or a no-content note. -/
def sw_block (i : Nat) (r : SWResult) : PyStr :=
  sw_header i r ++
  (match r.markdown with
   | some c => truncate_content 2000 c ++ "\n\n".toList
   | none => "No content extracted\n\n".toList)

/-- The concatenated blocks, numbered from i. -/
def sw_blocks : Nat → List SWResult → PyStr
  | _, [] => []
  | i, r :: rs => sw_block i r ++ sw_blocks (i + 1) rs

/-- Embedding of the result formatting of DeepResearchAgent._search_web
(src/deep_research_agent.py lines 254-275), given the extractor results. -/
def agent_search_web (results : List SWResult) : PyStr :=
  if results = [] then "No search results found.".toList
  else sw_blocks 1 results

/-- The metadata dict as read by _extract_from_url (only the title key is
read; the none case also covers an empty dict, which is falsy). -/
structure EFUMeta where
  title : Option PyStr
deriving DecidableEq

/-- A result dict as read by _extract_from_url. -/
structure EFUResult where
  metadata : Option EFUMeta
  markdown : Option PyStr
deriving DecidableEq

/-- The header of the _extract_from_url output: the content-from line plus
the optional title heading. -/
def efu_header (url : PyStr) (r : EFUResult) : PyStr :=
  "# Content from ".toList ++ url ++ "\n\n".toList ++
  (match r.metadata with
   | none => []
   | some m =>
     let t := m.title.getD []
     if t = [] then [] else "## ".toList ++ t ++ "\n\n".toList)

/-- Embedding of the result formatting of
DeepResearchAgent._extract_from_url (src/deep_research_agent.py lines
348-366): header, then the 3000-capped markdown or a no-content note. -/
def efu_format (url : PyStr) (r : EFUResult) : PyStr :=
  efu_header url r ++
  (match r.markdown with
   | some c => truncate_content 3000 c
   | none => "No content extracted".toList)

/-- Embedding of the result formatting of
DeepResearchAgent._search_and_extract (src/deep_research_agent.py lines
391-402): the combined text, capped at 4000 characters. -/
def agent_search_and_extract_format (results : List CombineResult) : PyStr :=
  truncate_content 4000 (combine_results_for_llm "markdown".toList true results)

/-!
### deep_research_agent.py, DeepResearchAgent.__init__

    self.openai_api_key = openai_api_key or os.getenv("OPENAI_API_KEY")
    if not self.openai_api_key:
        raise ValueError("OpenAI API key is required. ...")
    if use_local_docker:
        try:
            self.extractor = WebToTextExtractor.create_with_local_docker()
        except Exception:
            self.extractor = self._initialize_cloud_api(firecrawl_api_key)
    else:
        self.extractor = self._initialize_cloud_api(firecrawl_api_key)

and _initialize_cloud_api:

    api_key = firecrawl_api_key or os.getenv("FIRECRAWL_API_KEY")
    if not api_key:
        logger.warning("No FireCrawl API key provided. ...")
        return WebToTextExtractor()
    else:
        return WebToTextExtractor(api_key=api_key)

Modelled from the spec: the WebToTextExtractor / FirecrawlApp constructors
live in the vendored firecrawl module, which is not under src/; following
the spec (absence of the second key degrades extraction features but does
not prevent construction), they are modelled as never raising, so the only
constructor-visible effect is which configuration the extractor ends up
with.  Whether create_with_local_docker raises is kept as an oracle Bool.
-/

/-- The extractor configuration the constructor ends up with. -/
inductive ExtractorConfig where
  | localDocker
  | cloudWithKey (key : PyStr)
  | cloudNoKey
deriving DecidableEq

/-- The constructed agent state (the fields the claims observe). -/
structure AgentState where
  openai_api_key : PyStr
  extractor : ExtractorConfig
deriving DecidableEq

/-- Embedding of DeepResearchAgent._initialize_cloud_api
(src/deep_research_agent.py lines 75-91).  Modelled from the spec: the
WebToTextExtractor constructor (vendored firecrawl module, not under
src/) is taken to be non-raising, per the spec sentence that a missing
extraction key only degrades features. -/
def initialize_cloud_api (firecrawl_api_key env_fc : Option PyStr) :
    ExtractorConfig :=
  let api_key := py_or firecrawl_api_key env_fc
  if py_truthy api_key then .cloudWithKey (api_key.getD [])
  else .cloudNoKey

/-- Embedding of DeepResearchAgent.__init__ (src/deep_research_agent.py
lines 41-73): a falsy language-model key raises ValueError; otherwise the
extractor is configured, the local-Docker path falling back to the cloud
path when its constructor raises (oracle docker_init_raises). -/
def deep_research_agent_init (openai_api_key env_openai : Option PyStr)
    (use_local_docker : Bool) (firecrawl_api_key env_fc : Option PyStr)
    (docker_init_raises : Bool) : Except PyStr AgentState :=
  let key := py_or openai_api_key env_openai
  if py_truthy key then
    let ext :=
      if use_local_docker then
        if docker_init_raises then initialize_cloud_api firecrawl_api_key env_fc
        else .localDocker
      else initialize_cloud_api firecrawl_api_key env_fc
    .ok ⟨key.getD [], ext⟩
  else
    .error "OpenAI API key is required. Please provide it or set OPENAI_API_KEY environment variable.".toList

/-!
### Line counting

The separator-line count of C7 is about the lines of the combined output:
a line is a maximal newline-free segment, and a separator line is a line
equal to eighty equals signs.
-/

/-- The lines of a string: maximal newline-free segments (a string with no
newline is one line; each newline ends a line). -/
def split_lines : PyStr → List PyStr
  | [] => [[]]
  | c :: cs =>
    let r := split_lines cs
    if c = '\n' then [] :: r
    else (c :: r.headD []) :: r.tail

/-- How many lines of a string are exactly the eighty-equals separator
line. -/
def sep_count (s : PyStr) : Nat :=
  (split_lines s).count sep_line

/-- A string none of whose lines is the separator line. -/
def clean_str (s : PyStr) : Bool :=
  sep_count s = 0

/-- Cleanliness of an optional dict value. -/
def clean_opt : Option PyStr → Bool
  | none => true
  | some s => clean_str s

/-- Cleanliness of the metadata sub-dict. -/
def clean_meta : Option MetaRec → Bool
  | none => true
  | some m =>
    clean_opt m.title && clean_opt m.description &&
    clean_opt m.author && clean_opt m.date

/-- A result dict none of whose textual fields contains a full separator
line of its own. -/
def clean_result (r : CombineResult) : Bool :=
  clean_opt r.url && clean_meta r.metadata && clean_opt r.markdown &&
  clean_opt r.text && clean_opt r.html && clean_opt r.json

/-!
## Helper lemmas
-/

lemma split_lines_ne_nil (s : PyStr) : split_lines s ≠ [] := by
  cases s with
  | nil => simp [split_lines]
  | cons c cs =>
    simp only [split_lines]
    by_cases h : c = '\n' <;> simp [h]

lemma split_lines_append_nl (xs ys : PyStr) :
    split_lines (xs ++ '\n' :: ys) = split_lines xs ++ split_lines ys := by
  induction xs with
  | nil => simp [split_lines]
  | cons c cs ih =>
    by_cases h : c = '\n'
    · subst h; simp [split_lines, ih]
    · rcases hA : split_lines cs with _ | ⟨a, as⟩
      · exact absurd hA (split_lines_ne_nil cs)
      · simp [split_lines, h, ih, hA]

lemma split_lines_no_nl (s : PyStr) (h : '\n' ∉ s) : split_lines s = [s] := by
  induction s with
  | nil => rfl
  | cons c cs ih =>
    have hc : c ≠ '\n' := by rintro rfl; exact h (List.mem_cons_self _ _)
    have hcs : '\n' ∉ cs := fun hm => h (List.mem_cons_of_mem _ hm)
    simp [split_lines, hc, ih hcs]

lemma sep_count_nil : sep_count [] = 0 := by decide

lemma sep_count_append_nl (xs ys : PyStr) :
    sep_count (xs ++ '\n' :: ys) = sep_count xs + sep_count ys := by
  simp [sep_count, split_lines_append_nl, List.count_append]

lemma sep_count_single (s : PyStr) (h : '\n' ∉ s) (h2 : s ≠ sep_line) :
    sep_count s = 0 := by
  simp [sep_count, split_lines_no_nl s h, List.count_cons, h2]

lemma split_lines_prepend (pre s : PyStr) (h : '\n' ∉ pre) :
    split_lines (pre ++ s) =
      (pre ++ (split_lines s).headD []) :: (split_lines s).tail := by
  induction pre with
  | nil =>
    rcases hA : split_lines s with _ | ⟨a, as⟩
    · exact absurd hA (split_lines_ne_nil s)
    · simp [hA]
  | cons c cs ih =>
    have hc : c ≠ '\n' := by rintro rfl; exact h (List.mem_cons_self _ _)
    have hcs : '\n' ∉ cs := fun hm => h (List.mem_cons_of_mem _ hm)
    simp [split_lines, hc, ih hcs]

lemma sep_line_eq_cons : sep_line = '=' :: List.replicate 79 '=' := rfl

lemma sep_count_prepend (pre s : PyStr) (hn : '\n' ∉ pre)
    (hh : pre.head? ≠ some '=') (hs : sep_count s = 0) :
    sep_count (pre ++ s) = 0 := by
  rcases hA : split_lines s with _ | ⟨a, as⟩
  · exact absurd hA (split_lines_ne_nil s)
  · have hs' : as.count sep_line = 0 ∧ a ≠ sep_line := by
      have := hs
      simp [sep_count, hA, List.count_cons] at this
      exact ⟨this.1, fun he => by simp [he] at this⟩
    have hpa : pre ++ a ≠ sep_line := by
      cases pre with
      | nil => simpa using hs'.2
      | cons p ps =>
        intro he
        rw [sep_line_eq_cons] at he
        have hp : p = '=' := (List.cons.injEq _ _ _ _).mp (by simpa using he) |>.1
        exact hh (by simp [hp])
    simp [sep_count, split_lines_prepend pre s hn, hA, List.count_cons, hpa, hs'.1]

lemma digitChar_bound (d : Nat) (h : d < 10) :
    48 ≤ (digitChar d).toNat ∧ (digitChar d).toNat ≤ 57 := by
  interval_cases d <;> decide

lemma natDigits_chars (n : Nat) : ∀ c ∈ natDigits n, 48 ≤ c.toNat ∧ c.toNat ≤ 57 := by
  induction n using Nat.strong_induction_on with
  | _ n ih =>
    intro c hc
    by_cases h : n < 10
    · rw [natDigits] at hc
      simp [h] at hc
      subst hc
      exact digitChar_bound n h
    · rw [natDigits] at hc
      simp [h] at hc
      rcases hc with hc | hc
      · exact ih (n / 10) (Nat.div_lt_self (by omega) (by omega)) c hc
      · subst hc
        exact digitChar_bound (n % 10) (Nat.mod_lt _ (by omega))

lemma natDigits_no_newline (n : Nat) : '\n' ∉ natDigits n := fun hm =>
  absurd (natDigits_chars n '\n' hm).1 (by decide)

lemma natDigits_no_eq_sign (n : Nat) : '=' ∉ natDigits n := fun hm =>
  absurd (natDigits_chars n '=' hm).2 (by decide)

lemma natDigits_len_of_lt_ten (n : Nat) (h : n < 10) : (natDigits n).length = 1 := by
  rw [natDigits]; simp [h]

lemma natDigits_len_ge_ten (n : Nat) (h : 10 ≤ n) :
    (natDigits n).length = (natDigits (n / 10)).length + 1 := by
  rw [natDigits]
  have : ¬ n < 10 := by omega
  simp [this]

lemma natDigits_len4 (n : Nat) (h1 : 1000 ≤ n) (h2 : n ≤ 9999) :
    (natDigits n).length = 4 := by
  rw [natDigits_len_ge_ten n (by omega),
      natDigits_len_ge_ten (n / 10) (by omega),
      natDigits_len_ge_ten (n / 10 / 10) (by omega),
      natDigits_len_of_lt_ten (n / 10 / 10 / 10) (by omega)]

lemma pad2_len (n : Nat) (h : n ≤ 99) : (pad2 n).length = 2 := by
  by_cases h1 : n < 10
  · simp [pad2, h1, natDigits_len_of_lt_ten n h1]
  · simp only [pad2, h1, if_false]
    rw [natDigits_len_ge_ten n (by omega),
        natDigits_len_of_lt_ten (n / 10) (by omega)]

lemma pad4_len (n : Nat) (h1 : 1000 ≤ n) (h2 : n ≤ 9999) : (pad4 n).length = 4 := by
  simp [pad4, natDigits_len4 n h1 h2]

lemma timestamp_compact_len (t : PyDateTime) (h : t.valid) :
    (timestamp_compact t).length = 15 := by
  obtain ⟨h1, h2, _, h4, _, h6, h7, h8, h9⟩ := h
  simp [timestamp_compact, pad4_len t.year h1 h2,
        pad2_len t.month (by omega), pad2_len t.day (by omega),
        pad2_len t.hour (by omega), pad2_len t.minute (by omega),
        pad2_len t.second (by omega)]

lemma clean_opt_some {o : Option PyStr} {c : PyStr}
    (h : clean_opt o = true) (he : o = some c) : sep_count c = 0 := by
  subst he; simpa [clean_opt, clean_str] using h

lemma sep_count_sep_piece : sep_count ('\n' :: (sep_line ++ "\n".toList)) = 1 := by
  have h2 : sep_count (sep_line ++ '\n' :: []) = 1 := by
    rw [sep_count_append_nl, sep_count_nil]
    simp [sep_count, split_lines_no_nl sep_line (by decide), List.count_cons]
  have h3 : ('\n' :: (sep_line ++ "\n".toList) : PyStr) =
      [] ++ '\n' :: (sep_line ++ '\n' :: []) := rfl
  rw [h3, sep_count_append_nl, sep_count_nil, h2]

lemma kv_pieces_sum (pre : PyStr) (o : Option PyStr) (hn : '\n' ∉ pre)
    (hh : pre.head? ≠ some '=') (h : clean_opt o = true) :
    ((kv_pieces pre o).map sep_count).sum = 0 := by
  cases o with
  | none => rfl
  | some d =>
    by_cases hd : d = []
    · simp [kv_pieces, hd]
    · have hcd : sep_count d = 0 := clean_opt_some h rfl
      have hinner : sep_count (d ++ "\n".toList) = 0 := by
        have he : (d ++ "\n".toList : PyStr) = d ++ '\n' :: [] := rfl
        rw [he, sep_count_append_nl, sep_count_nil, hcd]
      have hp : sep_count (pre ++ (d ++ "\n".toList)) = 0 :=
        sep_count_prepend pre _ hn hh hinner
      simpa [kv_pieces, hd] using hp

lemma sep_count_default_source (i : Nat) :
    sep_count ("Source ".toList ++ natDigits i) = 0 := by
  apply sep_count_single
  · intro hm
    rcases List.mem_append.mp hm with h | h
    · revert h; decide
    · exact natDigits_no_newline i h
  · intro he
    have he' : 'S' :: ("ource ".toList ++ natDigits i) = '=' :: List.replicate 79 '=' := by
      rw [← sep_line_eq_cons]; exact he
    exact absurd (List.cons.inj he').1 (by decide)

lemma meta_pieces_sum (i : Nat) (r : CombineResult) (h : clean_result r = true) :
    ((meta_pieces i r).map sep_count).sum = 0 := by
  simp only [clean_result, Bool.and_eq_true] at h
  obtain ⟨⟨⟨⟨⟨hurl, hmeta⟩, _⟩, _⟩, _⟩, _⟩ := h
  have htitle : sep_count (match r.metadata with
      | none => "Source ".toList ++ natDigits i
      | some m => m.title.getD ("Source ".toList ++ natDigits i)) = 0 := by
    cases hm : r.metadata with
    | none => exact sep_count_default_source i
    | some m =>
      cases ht : m.title with
      | none => simp only [ht, Option.getD_none]; exact sep_count_default_source i
      | some tt =>
        simp only [ht, Option.getD_some]
        rw [hm] at hmeta
        simp only [clean_meta, Bool.and_eq_true] at hmeta
        exact clean_opt_some hmeta.1.1.1 ht
  have hT : sep_count ("# ".toList ++ ((match r.metadata with
      | none => "Source ".toList ++ natDigits i
      | some m => m.title.getD ("Source ".toList ++ natDigits i)) ++ "\n".toList)) = 0 := by
    apply sep_count_prepend _ _ (by decide) (by decide)
    rw [show ((match r.metadata with
      | none => "Source ".toList ++ natDigits i
      | some m => m.title.getD ("Source ".toList ++ natDigits i)) ++ "\n".toList : PyStr) =
        (match r.metadata with
      | none => "Source ".toList ++ natDigits i
      | some m => m.title.getD ("Source ".toList ++ natDigits i)) ++ '\n' :: [] from rfl,
      sep_count_append_nl, sep_count_nil, htitle]
  have hU : sep_count ("URL: ".toList ++ (r.url.getD [] ++ "\n".toList)) = 0 := by
    apply sep_count_prepend _ _ (by decide) (by decide)
    have hu : sep_count (r.url.getD []) = 0 := by
      cases hru : r.url with
      | none => exact sep_count_nil
      | some u => simpa using clean_opt_some hurl hru
    rw [show (r.url.getD [] ++ "\n".toList : PyStr) = r.url.getD [] ++ '\n' :: [] from rfl,
        sep_count_append_nl, sep_count_nil, hu]
  have hKV : ((match r.metadata with
      | none => ([] : List PyStr)
      | some m =>
        kv_pieces "Description: ".toList m.description ++
        kv_pieces "Author: ".toList m.author ++
        kv_pieces "Date: ".toList m.date).map sep_count).sum = 0 := by
    cases hm : r.metadata with
    | none => rfl
    | some m =>
      rw [hm] at hmeta
      simp only [clean_meta, Bool.and_eq_true] at hmeta
      obtain ⟨⟨⟨_, hd⟩, ha⟩, hdt⟩ := hmeta
      simp only [List.map_append, List.sum_append]
      rw [kv_pieces_sum "Description: ".toList m.description (by decide) (by decide) hd,
          kv_pieces_sum "Author: ".toList m.author (by decide) (by decide) ha,
          kv_pieces_sum "Date: ".toList m.date (by decide) (by decide) hdt]
  have hNL : sep_count ("\n".toList) = 0 := by decide
  simp only [meta_pieces, List.map_cons, List.map_append, List.sum_cons, List.sum_append]
  rw [hT, hU, hKV, hNL]
  simp

lemma content_pieces_sum (fmt : PyStr) (r : CombineResult)
    (h : clean_result r = true) :
    ((content_pieces fmt r).map sep_count).sum = 0 := by
  simp only [clean_result, Bool.and_eq_true] at h
  obtain ⟨⟨⟨⟨⟨_, _⟩, hmd⟩, htx⟩, hht⟩, hjs⟩ := h
  have hmdf : ∀ c, md_field r fmt = some c → sep_count c = 0 := by
    intro c hc
    unfold md_field at hc
    split_ifs at hc
    · exact clean_opt_some hmd hc
    · exact clean_opt_some htx hc
    · exact clean_opt_some hht hc
    · exact clean_opt_some hjs hc
  cases hf : md_field r fmt with
  | some c => simp [content_pieces, hf, hmdf c hf]
  | none =>
    cases hm : r.markdown with
    | some c => simp [content_pieces, hf, hm, clean_opt_some hmd hm]
    | none =>
      cases htex : r.text with
      | some c => simp [content_pieces, hf, hm, htex, clean_opt_some htx htex]
      | none =>
        cases hh : r.html with
        | some c =>
          simp [content_pieces, hf, hm, htex, hh, clean_opt_some hht hh]
          decide
        | none =>
          cases hj : r.json with
          | some c =>
            simp [content_pieces, hf, hm, htex, hh, hj, clean_opt_some hjs hj]
            decide
          | none => simp [content_pieces, hf, hm, htex, hh, hj]

lemma result_pieces_sum (fmt : PyStr) (inc : Bool) (i : Nat) (r : CombineResult)
    (h : clean_result r = true) :
    ((result_pieces fmt inc i r).map sep_count).sum = 1 := by
  have hNL : sep_count ("\n".toList) = 0 := by decide
  cases inc with
  | false =>
    simp only [result_pieces, Bool.false_eq_true, if_false, List.map_cons,
               List.map_append, List.sum_cons, List.sum_append]
    rw [sep_count_sep_piece, content_pieces_sum fmt r h, hNL]
    simp
  | true =>
    simp only [result_pieces, eq_self_iff_true, if_true, List.map_cons,
               List.map_append, List.sum_cons, List.sum_append]
    rw [sep_count_sep_piece, meta_pieces_sum i r h, content_pieces_sum fmt r h, hNL]
    simp

lemma combine_blocks_sum (fmt : PyStr) (inc : Bool) :
    ∀ (rs : List CombineResult) (i : Nat), (∀ r ∈ rs, clean_result r = true) →
      ((combine_blocks fmt inc i rs).map sep_count).sum = rs.length := by
  intro rs
  induction rs with
  | nil => intro i _; simp [combine_blocks]
  | cons r rs ih =>
    intro i h
    have h1 := h r (List.mem_cons_self _ _)
    have h2 : ∀ x ∈ rs, clean_result x = true :=
      fun x hx => h x (List.mem_cons_of_mem _ hx)
    simp only [combine_blocks, List.map_append, List.sum_append,
               result_pieces_sum fmt inc i r h1, ih (i + 1) h2, List.length_cons]
    omega

lemma sep_count_py_join : ∀ ps : List PyStr,
    sep_count (py_join_nl ps) = (ps.map sep_count).sum := by
  intro ps
  induction ps with
  | nil => simpa [py_join_nl] using sep_count_nil
  | cons p ps ih =>
    cases ps with
    | nil => simp [py_join_nl]
    | cons q ps' =>
      rw [show py_join_nl (p :: q :: ps') = p ++ '\n' :: py_join_nl (q :: ps') from rfl,
          sep_count_append_nl, ih]
      simp

/-!
## Claim theorems
-/

/-- C9: for every topic string and every requested query count, the
search-query-generation helper ignores the requested count and returns
exactly the single-element list containing the topic itself (and so does
the function tool wrapping it, whatever optional count it receives). -/
theorem generate_search_queries_spec (topic : PyStr) (n m : Nat) :
    generate_search_queries topic n = [topic] ∧
    generate_search_queries topic n = generate_search_queries topic m ∧
    (∀ o : Option Nat, generate_search_queries_tool topic o = [topic]) :=
  ⟨rfl, rfl, fun _ => rfl⟩

/-- C8: construction of the agent raises exactly when the language-model
key is unavailable (neither a truthy explicit argument nor a truthy
environment value); when that key is available, construction succeeds for
every combination of extraction-key availability, backend selection and
local-Docker constructor outcome, and with no extraction key on the cloud
path the extractor is still created in its degraded keyless
configuration. -/
theorem deep_research_agent_init_spec (a b : Option PyStr) (dock : Bool)
    (fc1 fc2 : Option PyStr) (dr : Bool) :
    (except_is_error (deep_research_agent_init a b dock fc1 fc2 dr) =
      !py_truthy (py_or a b)) ∧
    (py_truthy (py_or fc1 fc2) = false → (dock = false ∨ dr = true) →
      py_truthy (py_or a b) = true →
      deep_research_agent_init a b dock fc1 fc2 dr =
        .ok ⟨(py_or a b).getD [], .cloudNoKey⟩) := by
  constructor
  · by_cases h : py_truthy (py_or a b) <;>
      simp [deep_research_agent_init, except_is_error, h]
  · intro h1 h2 h3
    rcases h2 with h2 | h2 <;>
      cases dock <;>
        simp_all [deep_research_agent_init, initialize_cloud_api]

/-- Witness for C8 at a concrete input: a truthy language-model key and no
extraction key on the cloud path still construct the agent, with the
keyless extractor. -/
theorem deep_research_agent_init_witness :
    deep_research_agent_init (some "sk".toList) none false none none false =
      .ok ⟨"sk".toList, .cloudNoKey⟩ :=
  (deep_research_agent_init_spec (some "sk".toList) none false none none false).2
    rfl (Or.inl rfl) rfl

/-- C3 counterexample: in cloud mode (use_local_docker = False) the request
parameters carry the original format list unfiltered, so a request made
with only the unsupported name bogus is issued with bogus, not with the
markdown fallback the claim requires for both backend modes. -/
theorem extract_from_url_params_c3_cex :
    (extract_from_url_params false ["bogus".toList] 60000).formats =
      ["bogus".toList] ∧
    validated_formats ["bogus".toList] = ["markdown".toList] ∧
    (extract_from_url_params false ["bogus".toList] 60000).formats ≠
      ["markdown".toList] := by
  refine ⟨rfl, by decide, by decide⟩

/-- C3 (amended): unsupported format names are dropped, with the exact
markdown fallback when nothing remains, only in local-Docker mode; in
cloud mode the request is issued with the caller's format list
unchanged. -/
theorem extract_from_url_params_spec (formats : List PyStr) (t : Nat) :
    (∀ f ∈ (extract_from_url_params true formats t).formats, f ∈ valid_formats) ∧
    ((∀ f ∈ formats, f ∉ valid_formats) →
      (extract_from_url_params true formats t).formats = ["markdown".toList]) ∧
    (extract_from_url_params true formats t).formats = validated_formats formats ∧
    (extract_from_url_params false formats t).formats = formats := by
  refine ⟨?_, ?_, rfl, rfl⟩
  · intro f hf
    simp only [extract_from_url_params, if_true, eq_self_iff_true] at hf
    have hf' : f ∈ validated_formats formats := hf
    unfold validated_formats at hf'
    by_cases h : formats.filter (fun f => decide (f ∈ valid_formats)) = []
    · simp [h] at hf'
      subst hf'
      decide
    · simp only [h, if_false] at hf'
      simpa using (List.mem_filter.mp hf').2
  · intro h
    have hnil : formats.filter (fun f => decide (f ∈ valid_formats)) = [] := by
      rw [List.filter_eq_nil_iff]
      intro a ha
      simpa using h a ha
    show validated_formats formats = _
    simp [validated_formats, hnil]

/-- Witness for C3 (amended) at a concrete input: in local-Docker mode a
request made with only the unsupported name bogus degrades to the
markdown singleton. -/
theorem extract_from_url_params_witness :
    (extract_from_url_params true ["bogus".toList] 60000).formats =
      ["markdown".toList] :=
  (extract_from_url_params_spec ["bogus".toList] 60000).2.1 (by decide)

/-- C7: combine_results_for_llm on the empty result sequence returns the
empty string, and on N results whose own textual fields contain no full
eighty-equals line, the output contains exactly N separator lines. -/
theorem combine_results_for_llm_sep_spec (fmt : PyStr) (inc : Bool) :
    combine_results_for_llm fmt inc [] = [] ∧
    (∀ results : List CombineResult,
      (∀ r ∈ results, clean_result r = true) →
      sep_count (combine_results_for_llm fmt inc results) = results.length) := by
  refine ⟨rfl, ?_⟩
  intro rs h
  rw [combine_results_for_llm, sep_count_py_join, combine_blocks_sum fmt inc rs 1 h]

/-- Witness for C7 at a concrete input: two results with no fields of
their own yield exactly two separator lines. -/
theorem combine_results_for_llm_sep_witness :
    sep_count (combine_results_for_llm "markdown".toList true
      [⟨none, none, none, none, none, none⟩,
       ⟨none, none, none, none, none, none⟩]) = 2 :=
  (combine_results_for_llm_sep_spec "markdown".toList true).2
    [⟨none, none, none, none, none, none⟩,
     ⟨none, none, none, none, none, none⟩] (by decide)

/-- C5: at each of the three formatting stages, content strictly over the
stage cap (2000 inline, 3000 single-URL, 4000 combined) is rendered as
exactly the first cap characters followed by the literal truncation
marker, and content at or under the cap is rendered unchanged (so the
marker is never appended to it). -/
theorem truncation_caps_spec :
    (∀ (i : Nat) (r : SWResult) (c : PyStr), r.markdown = some c →
      (2000 < c.length →
        sw_block i r = sw_header i r ++ ((c.take 2000 ++ trunc_marker) ++ "\n\n".toList)) ∧
      (c.length ≤ 2000 → sw_block i r = sw_header i r ++ (c ++ "\n\n".toList))) ∧
    (∀ (url : PyStr) (r : EFUResult) (c : PyStr), r.markdown = some c →
      (3000 < c.length →
        efu_format url r = efu_header url r ++ (c.take 3000 ++ trunc_marker)) ∧
      (c.length ≤ 3000 → efu_format url r = efu_header url r ++ c)) ∧
    (∀ results : List CombineResult,
      (4000 < (combine_results_for_llm "markdown".toList true results).length →
        agent_search_and_extract_format results =
          (combine_results_for_llm "markdown".toList true results).take 4000 ++
            trunc_marker) ∧
      ((combine_results_for_llm "markdown".toList true results).length ≤ 4000 →
        agent_search_and_extract_format results =
          combine_results_for_llm "markdown".toList true results)) := by
  refine ⟨?_, ?_, ?_⟩
  · intro i r c hc
    constructor
    · intro hl
      simp [sw_block, hc, truncate_content, hl]
    · intro hl
      simp [sw_block, hc, truncate_content, Nat.not_lt.mpr hl]
  · intro url r c hc
    constructor
    · intro hl
      simp [efu_format, hc, truncate_content, hl]
    · intro hl
      simp [efu_format, hc, truncate_content, Nat.not_lt.mpr hl]
  · intro results
    constructor
    · intro hl
      simp only [agent_search_and_extract_format, truncate_content]
      rw [if_pos hl]
    · intro hl
      simp only [agent_search_and_extract_format, truncate_content]
      rw [if_neg (by omega)]

/-- Witness for C5 at a concrete input: the empty result list combines to
a text at or under the 4000 cap and is returned unchanged. -/
theorem truncation_caps_witness :
    agent_search_and_extract_format [] =
      combine_results_for_llm "markdown".toList true [] :=
  (truncation_caps_spec.2.2 []).2 (by decide)

/-- C6: for every question and every stage-oracle behaviour, the first
stage that raises aborts the pipeline (later stages are not invoked) and
research returns the error string built from the exception message; when
no stage raises, the synthesis output is returned.  The embedding is a
total function into strings, so no exception propagates to the caller. -/
theorem agent_research_spec (p r s : PyStr → Except PyStr PyStr) (q : PyStr) :
    (∀ e, p (plan_input q) = .error e →
      agent_research p r s q = (err_research e, [.plan])) ∧
    (∀ po e, p (plan_input q) = .ok po → r (research_input q po) = .error e →
      agent_research p r s q = (err_research e, [.plan, .research])) ∧
    (∀ po ro e, p (plan_input q) = .ok po → r (research_input q po) = .ok ro →
      s (synthesis_input q ro) = .error e →
      agent_research p r s q = (err_research e, [.plan, .research, .synthesize])) ∧
    (∀ po ro so, p (plan_input q) = .ok po → r (research_input q po) = .ok ro →
      s (synthesis_input q ro) = .ok so →
      agent_research p r s q = (so, [.plan, .research, .synthesize])) := by
  refine ⟨?_, ?_, ?_, ?_⟩
  · intro e h1
    simp [agent_research, h1]
  · intro po e h1 h2
    simp [agent_research, h1, h2]
  · intro po ro e h1 h2 h3
    simp [agent_research, h1, h2, h3]
  · intro po ro so h1 h2 h3
    simp [agent_research, h1, h2, h3]

/-- Witness for C6 at a concrete input: a raising planner stage makes
research return the error string with only the planning stage invoked. -/
theorem agent_research_witness :
    agent_research (fun _ => .error "boom".toList) (fun _ => .ok [])
      (fun _ => .ok []) [] = (err_research "boom".toList, [PipelineStage.plan]) :=
  (agent_research_spec (fun _ => .error "boom".toList) (fun _ => .ok [])
    (fun _ => .ok []) []).1 "boom".toList rfl

lemma scrape_step_some_inv {α : Type} {f : PyStr → Except PyStr α}
    {item : SearchResultItem} {x : ExtractedItem α}
    (h : scrape_step f item = some x) :
    f x.search_metadata.url = .ok x.content ∧
      item.url = some x.search_metadata.url := by
  cases hu : item.url with
  | none => simp [scrape_step, hu] at h
  | some u =>
    by_cases hz : u = []
    · simp [scrape_step, hu, hz] at h
    · cases hf : f u with
      | error e => simp [scrape_step, hu, hz, hf] at h
      | ok a =>
        simp only [scrape_step, hu, if_neg hz, hf, Option.some.injEq] at h
        subst h
        exact ⟨hf, rfl⟩

lemma scrape_step_some_of {α : Type} {f : PyStr → Except PyStr α}
    {item : SearchResultItem} {u : PyStr} {a : α}
    (hu : item.url = some u) (hz : u ≠ []) (hf : f u = .ok a) :
    scrape_step f item = some ⟨a, ⟨item.title.getD [], item.snippet.getD [], u⟩⟩ := by
  simp [scrape_step, hu, hz, hf]

/-- C1 (amended): search_and_extract raises exactly when the search call
itself raises; a search response that reports failure (success not set or
data missing) yields the empty sequence rather than an error; on a
successful search every returned element is a successful scrape of one of
the search result URLs (so no placeholder is ever produced), every URL
whose scrape raises is absent from the returned sequence, and every
result item with a truthy URL whose scrape succeeds does appear. -/
theorem web_search_and_extract_spec {α : Type} (s : Except PyStr SearchResponse)
    (f : PyStr → Except PyStr α) :
    (except_is_error (web_search_and_extract s f) = except_is_error s) ∧
    (∀ e, s = .error e → web_search_and_extract s f = .error e) ∧
    (∀ resp, s = .ok resp → (resp.success = false ∨ resp.data = none) →
      web_search_and_extract s f = .ok []) ∧
    (∀ resp items, s = .ok resp → resp.success = true → resp.data = some items →
      ∃ l, web_search_and_extract s f = .ok l ∧
        (∀ x ∈ l, f x.search_metadata.url = .ok x.content ∧
          ∃ item ∈ items, item.url = some x.search_metadata.url) ∧
        (∀ u e, f u = .error e → ∀ x ∈ l, x.search_metadata.url ≠ u) ∧
        (∀ item ∈ items, ∀ u a, item.url = some u → u ≠ [] → f u = .ok a →
          ∃ x ∈ l, x.search_metadata.url = u ∧ x.content = a)) := by
  refine ⟨?_, ?_, ?_, ?_⟩
  · cases s with
    | error e => rfl
    | ok resp =>
      obtain ⟨su, da⟩ := resp
      cases da <;> cases su <;> rfl
  · intro e he
    subst he
    rfl
  · intro resp hs hfail
    subst hs
    obtain ⟨su, da⟩ := resp
    rcases hfail with h | h
    · simp at h
      subst h
      cases da <;> rfl
    · simp at h
      subst h
      rfl
  · intro resp items hs hsu hda
    subst hs
    obtain ⟨su, da⟩ := resp
    simp at hsu hda
    subst hsu
    subst hda
    refine ⟨items.filterMap (scrape_step f), rfl, ?_, ?_, ?_⟩
    · intro x hx
      obtain ⟨item, hitem, hstep⟩ := List.mem_filterMap.mp hx
      have h := scrape_step_some_inv hstep
      exact ⟨h.1, item, hitem, h.2⟩
    · intro u e hfe x hx hxu
      obtain ⟨item, hitem, hstep⟩ := List.mem_filterMap.mp hx
      have h := (scrape_step_some_inv hstep).1
      rw [hxu, hfe] at h
      cases h
    · intro item hitem u a hu hz hf
      exact ⟨⟨a, ⟨item.title.getD [], item.snippet.getD [], u⟩⟩,
        List.mem_filterMap.mpr ⟨item, hitem, scrape_step_some_of hu hz hf⟩, rfl, rfl⟩

/-- C1 counterexample: with a search response reporting failure (success
False) and a scrape oracle that always succeeds, the search step has
failed but the overall call returns the empty list instead of raising, so
the claimed equivalence between overall failure and search-step failure
does not hold at this input. -/
theorem web_search_and_extract_c1_cex :
    ¬ ((except_is_error (@web_search_and_extract PyStr
        (Except.ok ⟨false, some []⟩) (fun _ => Except.ok [])) = true) ↔
       (search_step_failed_spec (Except.ok ⟨false, some []⟩) = true)) := by
  decide

/-- Witness for C1 (amended) at a concrete input: a failure-reporting
search response makes the call return the empty list. -/
theorem web_search_and_extract_witness :
    @web_search_and_extract PyStr (Except.ok ⟨false, some []⟩)
      (fun _ => Except.ok []) = Except.ok [] :=
  (web_search_and_extract_spec (Except.ok ⟨false, some []⟩)
    (fun _ => Except.ok [])).2.2.1 ⟨false, some []⟩ rfl (Or.inl rfl)

lemma poll_loop_cont (poll : Nat → StatusResponse) (rid : PyStr) (fuel k : Nat)
    (h : cont_step (poll k) = true) :
    poll_loop poll rid (fuel + 1) k = poll_loop poll rid fuel (k + 1) := by
  simp only [cont_step] at h
  by_cases h1 : (poll k).status = "done".toList
  · simp [h1] at h
  · by_cases h2 : (poll k).status = "error".toList
    · simp [h1, h2] at h
    · by_cases h3 : (poll k).status = "processing".toList ∨
          (poll k).status = "scraping".toList
      · simp only [poll_loop]
        rw [if_neg h1, if_neg h2, if_pos h3]
      · simp only [h1, h2] at h
        simp at h
        exact absurd h h3

lemma poll_loop_skip (poll : Nat → StatusResponse) (rid : PyStr) :
    ∀ (i fuel k : Nat), (∀ j, j < i → cont_step (poll (k + j)) = true) →
      poll_loop poll rid (i + fuel) k = poll_loop poll rid fuel (k + i) := by
  intro i
  induction i with
  | zero => intro fuel k _; simp
  | succ n ih =>
    intro fuel k h
    have h0 : cont_step (poll k) = true := by simpa using h 0 (Nat.succ_pos n)
    have harith : (n + 1) + fuel = (n + fuel) + 1 := by omega
    rw [harith, poll_loop_cont poll rid (n + fuel) k h0]
    have h' : ∀ j, j < n → cont_step (poll (k + 1 + j)) = true := by
      intro j hj
      have := h (j + 1) (by omega)
      rwa [show k + (j + 1) = k + 1 + j from by omega] at this
    rw [ih fuel (k + 1) h']
    congr 1
    omega

lemma web_deep_research_reaches (sub : SubmissionResponse)
    (poll : Nat → StatusResponse) (fuel i : Nat) (hs : sub.success = true)
    (hif : i ≤ fuel) (hcont : ∀ j, j < i → cont_step (poll j) = true) :
    web_deep_research sub poll fuel = poll_loop poll sub.id (fuel - i) i := by
  simp only [web_deep_research, hs, if_true]
  have h1 : poll_loop poll sub.id fuel 0 = poll_loop poll sub.id (i + (fuel - i)) 0 := by
    congr 1
    omega
  rw [h1, poll_loop_skip poll sub.id i (fuel - i) 0 (by simpa using hcont)]
  congr 1
  omega

lemma poll_loop_exit_done (poll : Nat → StatusResponse) (rid : PyStr)
    (fuel i : Nat) (hd : (poll i).status = "done".toList) :
    poll_loop poll rid (fuel + 1) i =
      some (.ok (poll i).sources (poll i).activities (poll i).summaries rid, i + 1) := by
  simp only [poll_loop]
  rw [if_pos hd]

lemma poll_loop_exit_error (poll : Nat → StatusResponse) (rid : PyStr)
    (fuel i : Nat) (hd : (poll i).status ≠ "done".toList)
    (he : (poll i).status = "error".toList) :
    poll_loop poll rid (fuel + 1) i = some (.err (poll i).error, i + 1) := by
  simp only [poll_loop]
  rw [if_neg hd, if_pos he]

/-- C4: a deep-research submission that reports failure returns the error
snapshot built from the submission error immediately, with zero status
polls issued; a successful submission polls, and the first poll whose
status leaves the processing/scraping loop yields the success snapshot on
done and the error snapshot on error. -/
theorem web_deep_research_spec (sub : SubmissionResponse)
    (poll : Nat → StatusResponse) (fuel : Nat) :
    (sub.success = false → web_deep_research sub poll fuel = some (.err sub.error, 0)) ∧
    (∀ i, sub.success = true → i < fuel → (∀ j, j < i → cont_step (poll j) = true) →
      ((poll i).status = "done".toList →
        web_deep_research sub poll fuel =
          some (.ok (poll i).sources (poll i).activities (poll i).summaries sub.id,
            i + 1)) ∧
      ((poll i).status = "error".toList →
        web_deep_research sub poll fuel = some (.err (poll i).error, i + 1))) := by
  constructor
  · intro h
    simp [web_deep_research, h]
  · intro i hs hif hcont
    have hreach := web_deep_research_reaches sub poll fuel i hs (by omega) hcont
    have hfi : fuel - i = (fuel - i - 1) + 1 := by omega
    constructor
    · intro hd
      rw [hreach, hfi, poll_loop_exit_done poll sub.id (fuel - i - 1) i hd]
    · intro he
      have hd : (poll i).status ≠ "done".toList := by
        rw [he]
        decide
      rw [hreach, hfi, poll_loop_exit_error poll sub.id (fuel - i - 1) i hd he]

/-- Witness for C4 at a concrete input: one processing poll followed by a
done poll returns the success snapshot after two polls. -/
theorem web_deep_research_witness :
    web_deep_research ⟨true, none, "rid".toList⟩
      (fun n => if n = 0 then ⟨"processing".toList, [], [], [], none⟩
                else ⟨"done".toList, [], [], [], none⟩) 5 =
      some (.ok [] [] [] "rid".toList, 2) := by
  have h := (web_deep_research_spec ⟨true, none, "rid".toList⟩
    (fun n => if n = 0 then ⟨"processing".toList, [], [], [], none⟩
              else ⟨"done".toList, [], [], [], none⟩) 5).2 1 rfl (by omega)
    (fun j hj => by
      have hj0 : j = 0 := by omega
      subst hj0
      decide)
  exact h.1 (by decide)

/-- C10: when the first poll that leaves the processing/scraping loop
reports a status outside the four known ones, the loop exits without a
result and the call returns the timed-out error snapshot even though no
timeout occurred. -/
theorem web_deep_research_unknown_status (sub : SubmissionResponse)
    (poll : Nat → StatusResponse) (fuel i : Nat) (hs : sub.success = true)
    (hif : i < fuel) (hcont : ∀ j, j < i → cont_step (poll j) = true)
    (h1 : (poll i).status ≠ "done".toList)
    (h2 : (poll i).status ≠ "error".toList)
    (h3 : (poll i).status ≠ "processing".toList)
    (h4 : (poll i).status ≠ "scraping".toList) :
    web_deep_research sub poll fuel =
      some (.err (some "Research timed out".toList), i + 1) := by
  have hreach := web_deep_research_reaches sub poll fuel i hs (by omega) hcont
  have hfi : fuel - i = (fuel - i - 1) + 1 := by omega
  rw [hreach, hfi]
  simp only [poll_loop]
  rw [if_neg h1, if_neg h2, if_neg (by tauto)]

/-- Witness for C10 at a concrete input: a first poll with the unknown
status cancelled yields the timed-out snapshot after one poll. -/
theorem web_deep_research_unknown_witness :
    web_deep_research ⟨true, none, "rid".toList⟩
      (fun _ => ⟨"cancelled".toList, [], [], [], none⟩) 3 =
      some (.err (some "Research timed out".toList), 1) :=
  web_deep_research_unknown_status ⟨true, none, "rid".toList⟩
    (fun _ => ⟨"cancelled".toList, [], [], [], none⟩) 3 0 rfl (by omega)
    (fun j hj => absurd hj (by omega)) (by decide) (by decide) (by decide) (by decide)

/-- C2 counterexample: Python isalnum is Unicode-aware, so in the topic
café the accented letter survives sanitization unchanged; the filename
topic segment therefore contains a character outside the ASCII class
[A-Za-z0-9 _-] that the claim prescribes, and the character is not
replaced with an underscore either. -/
theorem save_research_results_c2_cex :
    'é' ∈ topic_segment "café".toList ∧
    ¬ ('é'.isAlphanum = true ∨ 'é' = ' ' ∨ 'é' = '_' ∨ 'é' = '-') ∧
    sanitize_topic "café".toList = "café".toList := by
  decide

/-- C2 (amended): the filename topic segment contains only characters
that are Python-alphanumeric (Unicode isalnum, so accented letters are
kept) or in the set space/hyphen/underscore, every other character of the
topic having been replaced positionally with an underscore; the segment
is at most 50 characters long and is followed in the filename by an
underscore, the 15-character YYYYMMDD_HHMMSS timestamp and the md
extension; and the written content contains the body verbatim as a
contiguous substring. -/
theorem save_research_results_spec (topic results : PyStr) (now : PyDateTime)
    (h : now.valid) :
    (∀ c ∈ topic_segment topic,
      py_isalnum c = true ∨ c = ' ' ∨ c = '-' ∨ c = '_') ∧
    (topic_segment topic).length ≤ 50 ∧
    (∀ i : Nat, (sanitize_topic topic)[i]? = (topic[i]?).map sanitize_char) ∧
    (timestamp_compact now).length = 15 ∧
    (save_research_results topic results now).1 =
      "research_".toList ++ topic_segment topic ++
        '_' :: timestamp_compact now ++ ".md".toList ∧
    (∃ a b : PyStr, (save_research_results topic results now).2 = a ++ results ++ b) := by
  refine ⟨?_, ?_, ?_, timestamp_compact_len now h, rfl, ?_⟩
  · intro c hc
    have hc2 : c ∈ sanitize_topic topic := List.take_subset _ _ hc
    obtain ⟨d, _, rfl⟩ := List.mem_map.mp hc2
    unfold sanitize_char
    by_cases hall : (py_isalnum d || decide (d = ' ') || decide (d = '-') ||
        decide (d = '_')) = true
    · rw [if_pos hall]
      have h2 : ((py_isalnum d = true ∨ d = ' ') ∨ d = '-') ∨ d = '_' := by
        simpa using hall
      tauto
    · rw [if_neg hall]
      tauto
  · exact List.length_take_le 50 (sanitize_topic topic)
  · intro i
    simp [sanitize_topic, List.getElem?_map]
  · refine ⟨"# Research Results: ".toList ++ topic ++
      "\n\n## Generated on ".toList ++ timestamp_human now ++ "\n\n".toList,
      "\n".toList, ?_⟩
    simp [save_research_results, List.append_assoc]

/-- Witness for C2 (amended) at a concrete input: a concrete datetime is
valid and its compact timestamp has the 15-character shape. -/
theorem save_research_results_spec_witness :
    PyDateTime.valid ⟨2026, 10, 12, 3, 4, 5⟩ ∧
    (timestamp_compact ⟨2026, 10, 12, 3, 4, 5⟩).length = 15 :=
  ⟨by simp only [PyDateTime.valid]; omega,
   (save_research_results_spec "AI".toList "body".toList ⟨2026, 10, 12, 3, 4, 5⟩
     (by simp only [PyDateTime.valid]; omega)).2.2.2.1⟩
